import Mathlib

/-!
Shallow embedding of `src/main.py` of the shoe-store backend: the product
data model, the fixed sample catalog, the per-document normalization blocks
of `list_products` and `featured_products`, the seed guard `ensure_seed`,
and the diagnostic handler `test_database`.  The external document store
(`database.py`: `db`, `create_document`, `get_documents`) is modelled as an
abstract environment whose operations either return a value or raise a
Python exception carrying its message.  Python floats carrying the product
prices are modelled as exact rationals (every price literal in the program
is exactly representable, and the program only passes prices through and
compares them with 0).
-/

namespace ShoeStore

/-- Outcome of a call into the Python store collaborator: either a value, or
a raised exception carrying the message `str(e)`. -/
inductive PyResult (α : Type) where
  | ok : α → PyResult α
  | exc : String → PyResult α
deriving DecidableEq

/-- Whether the call raised. -/
def PyResult.isExc {α : Type} : PyResult α → Bool
  | .ok _ => false
  | .exc _ => true

/-- A raw document of the `product` collection as the normalization code
reads it: each key is either present with a typed value or absent
(`it.get(...)` then returns the default).  `oid` models the store-assigned
identity `_id`, already rendered through `str`, so `str(it.get("_id", ""))`
is `oid.getD ""`. -/
structure RawDoc where
  oid : Option String
  title : Option String
  description : Option String
  price : Option ℚ
  category : Option String
  in_stock : Option Bool
  image : Option String
  brand : Option String
  colors : Option (List String)
deriving DecidableEq

/-- The fixed four-entry sample catalog `SAMPLE_PRODUCTS` (src/main.py
lines 41-82); sample entries carry no store identity. -/
def SAMPLE_PRODUCTS : List RawDoc :=
  [ { oid := none
    , title := some "Air Nova Runner"
    , description := some "Featherlight daily trainer with responsive foam midsole."
    , price := some 149
    , category := some "running"
    , in_stock := some true
    , image := some "https://images.unsplash.com/photo-1542291026-7eec264c27ff?q=80&w=1200&auto=format&fit=crop"
    , brand := some "Nova"
    , colors := some ["black", "volt", "white"] }
  , { oid := none
    , title := some "Atlas Court Pro"
    , description := some "Premium leather court shoe with heritage styling."
    , price := some 179
    , category := some "lifestyle"
    , in_stock := some true
    , image := some "https://images.unsplash.com/photo-1525966222134-fcfa99b8ae77?q=80&w=1200&auto=format&fit=crop"
    , brand := some "Atlas"
    , colors := some ["white", "navy", "gold"] }
  , { oid := none
    , title := some "Storm Glide TR"
    , description := some "Trail-ready outsole and water-repellent upper."
    , price := some 159
    , category := some "trail"
    , in_stock := some true
    , image := some "https://images.unsplash.com/photo-1608231387042-66d1773070a5?q=80&w=1200&auto=format&fit=crop"
    , brand := some "Storm"
    , colors := some ["slate", "orange", "charcoal"] }
  , { oid := none
    , title := some "Pulse React 2"
    , description := some "Max cushioning with dynamic energy return."
    , price := some 199
    , category := some "running"
    , in_stock := some true
    , image := some "https://images.unsplash.com/photo-1603808033192-6aa3c0d03ff2?q=80&w=1200&auto=format&fit=crop"
    , brand := some "Pulse"
    , colors := some ["crimson", "white", "black"] }
  ]

/-- The dict `obj` built for each item inside the listing handlers
(src/main.py lines 111-121 and 135-145): id may be absent, title is whatever
`it.get("title")` yields (possibly absent), the remaining fields are already
defaulted. -/
structure Obj where
  id : Option String
  title : Option String
  description : Option String
  price : ℚ
  category : String
  in_stock : Bool
  image : Option String
  brand : Option String
  colors : Option (List String)
deriving DecidableEq

/-- The validated response model `ProductOut` (src/main.py lines 20-32):
`title` is a required string, `price` is a float with constraint `ge=0`. -/
structure ProductOut where
  id : Option String
  title : String
  description : Option String
  price : ℚ
  category : String
  in_stock : Bool
  image : Option String
  brand : Option String
  colors : Option (List String)
deriving DecidableEq

/-- The normalization dict built per item in `list_products` (src/main.py
lines 111-121): `"id": str(it.get("_id", "")) or None`, price defaulted to
0 and coerced, `in_stock` defaulted to `True`, `category` defaulted to
`"shoes"`, the rest passed through. -/
def objList (it : RawDoc) : Obj :=
  { id := if it.oid.getD "" = "" then none else some (it.oid.getD "")
  , title := it.title
  , description := it.description
  , price := it.price.getD 0
  , category := it.category.getD "shoes"
  , in_stock := it.in_stock.getD true
  , image := it.image
  , brand := it.brand
  , colors := it.colors }

/-- The normalization dict built per item in `featured_products`
(src/main.py lines 135-145); textually the same block as in
`list_products`. -/
def objFeatured (it : RawDoc) : Obj :=
  { id := if it.oid.getD "" = "" then none else some (it.oid.getD "")
  , title := it.title
  , description := it.description
  , price := it.price.getD 0
  , category := it.category.getD "shoes"
  , in_stock := it.in_stock.getD true
  , image := it.image
  , brand := it.brand
  , colors := it.colors }

/-- Pydantic validation performed by `ProductOut(**obj)`: `title: str`
rejects a missing title, `price: float = Field(..., ge=0)` rejects a
negative price; every other field of `obj` already has the declared type.
A validation failure raises, aborting the request. -/
def mkProductOut (o : Obj) : Except String ProductOut :=
  match o.title with
  | none => Except.error "validation error: title is required"
  | some t =>
    if o.price < 0 then Except.error "validation error: price must be >= 0"
    else Except.ok
      { id := o.id
      , title := t
      , description := o.description
      , price := o.price
      , category := o.category
      , in_stock := o.in_stock
      , image := o.image
      , brand := o.brand
      , colors := o.colors }

/-- Processing of one item by the loop of `list_products`: build `obj`, then
`ProductOut(**obj)`. -/
def itemList (it : RawDoc) : Except String ProductOut :=
  mkProductOut (objList it)

/-- Processing of one item by the loop of `featured_products`. -/
def itemFeatured (it : RawDoc) : Except String ProductOut :=
  mkProductOut (objFeatured it)

/-- The `out` accumulation loop of both handlers: process items in order,
the first validation failure aborts the whole request. -/
def buildOut (f : RawDoc → Except String ProductOut) :
    List RawDoc → Except String (List ProductOut)
  | [] => Except.ok []
  | d :: ds =>
    match f d with
    | Except.error e => Except.error e
    | Except.ok p =>
      match buildOut f ds with
      | Except.error e => Except.error e
      | Except.ok ps => Except.ok (p :: ps)

/-- Python slice `xs[:n]` for an `int` bound `n`: a nonnegative bound takes
a prefix, a negative bound drops the last `|n|` elements (clamped at 0). -/
def pySliceTo {α : Type} (xs : List α) (n : Int) : List α :=
  if 0 ≤ n then xs.take n.toNat
  else xs.take (xs.length - (-n).toNat)

/-- The contents of the store-side `product` collection. -/
structure StoreState where
  products : List RawDoc
deriving DecidableEq

/-- A store operation issued by this module, recorded for the theorems:
`db["product"].count_documents({})`, `create_document("product", doc)` and
`get_documents("product", filter_dict, limit)`. -/
inductive StoreOp where
  | count
  | insert (doc : RawDoc)
  | query (filter : Option String) (limit : Int)
deriving DecidableEq

/-- The store collaborator of `database.py` as this module sees it:
`dbSet` is whether the global handle `db` is not `None`; each operation
observes the collection and either returns or raises.  `filter_dict` is
either empty (`none`) or `{"category": c}` (`some c`). -/
structure Env where
  dbSet : Bool
  countR : StoreState → PyResult Nat
  insertR : RawDoc → StoreState → PyResult StoreState
  queryR : Option String → Int → StoreState → PyResult (List RawDoc)

/-- Outcome of the seed guard: whether an exception escaped, the resulting
collection contents, and the store operations performed. -/
structure SeedOutcome where
  raised : Bool
  state : StoreState
  ops : List StoreOp
deriving DecidableEq

/-- The `for p in SAMPLE_PRODUCTS: create_document("product", p)` loop inside
the `try` of `ensure_seed`: inserts in order; the first raising insert
aborts the loop, keeping the documents inserted before it. -/
def seedInsertLoop (env : Env) (s : StoreState) :
    List RawDoc → Bool × StoreState × List StoreOp
  | [] => (false, s, [])
  | d :: ds =>
    match env.insertR d s with
    | PyResult.exc _ => (true, s, [StoreOp.insert d])
    | PyResult.ok s1 =>
      let r := seedInsertLoop env s1 ds
      (r.1, r.2.1, StoreOp.insert d :: r.2.2)

/-- The `try` block of `ensure_seed` (src/main.py lines 88-92): count the
collection, and insert the sample products when the count is zero;
`raised = true` when an exception propagates out of the block. -/
def seedBody (env : Env) (s : StoreState) : SeedOutcome :=
  match env.countR s with
  | PyResult.exc _ => { raised := true, state := s, ops := [StoreOp.count] }
  | PyResult.ok n =>
    if n = 0 then
      let r := seedInsertLoop env s SAMPLE_PRODUCTS
      { raised := r.1, state := r.2.1, ops := StoreOp.count :: r.2.2 }
    else { raised := false, state := s, ops := [StoreOp.count] }

/-- `ensure_seed` (src/main.py lines 85-94): a no-op when `db is None`;
otherwise run the count-then-insert body with `except Exception: pass`
swallowing any raise. -/
def ensure_seed (env : Env) (s : StoreState) : SeedOutcome :=
  if env.dbSet = false then { raised := false, state := s, ops := [] }
  else
    let b := seedBody env s
    if b.raised then { raised := false, state := b.state, ops := b.ops }
    else b

/-- `filter_dict` construction of `list_products` (src/main.py lines
100-102): the `category` key is added only when the argument is truthy,
i.e. provided and non-empty. -/
def mkFilter : Option String → Option String
  | some c => if c = "" then none else some c
  | none => none

/-- The `try: items = get_documents(...) except: items = SAMPLE_PRODUCTS[:limit]`
block shared in shape by both handlers (src/main.py lines 103-107 and
129-132), with the slice bound equal to the requested limit. -/
def runQuery (env : Env) (filter_dict : Option String) (limit : Int)
    (s : StoreState) : List RawDoc :=
  match env.queryR filter_dict limit s with
  | PyResult.ok items => items
  | PyResult.exc _ => pySliceTo SAMPLE_PRODUCTS limit

/-- Outcome of a listing handler: the response (or the validation error that
aborted it), the store contents after the embedded seed attempt, and the
store operations performed. -/
structure ListOutcome where
  result : Except String (List ProductOut)
  state : StoreState
  ops : List StoreOp

/-- `list_products` (src/main.py lines 97-123): seed, build the filter,
query with fallback to `SAMPLE_PRODUCTS[:limit]`, then normalize every
item.  Python signature defaults are `limit = 20`, `category = None`. -/
def list_products (env : Env) (s : StoreState) (limit : Int)
    (category : Option String) : ListOutcome :=
  let sd := ensure_seed env s
  let filter_dict := mkFilter category
  let items := runQuery env filter_dict limit sd.state
  { result := buildOut itemList items
  , state := sd.state
  , ops := sd.ops ++ [StoreOp.query filter_dict limit] }

/-- `list_products` at its Python default arguments (`GET /api/products`
with no query parameters). -/
def list_products_default (env : Env) (s : StoreState) : ListOutcome :=
  list_products env s 20 none

/-- `featured_products` (src/main.py lines 126-147): seed, query with no
filter and limit 4, fall back to `SAMPLE_PRODUCTS[:4]`, normalize. -/
def featured_products (env : Env) (s : StoreState) : ListOutcome :=
  let sd := ensure_seed env s
  let items := runQuery env none 4 sd.state
  { result := buildOut itemFeatured items
  , state := sd.state
  , ops := sd.ops ++ [StoreOp.query none 4] }

/-- Environment of the `/test` handler: whether `db` is set, whether it has
a `name` attribute and what reading it yields, what
`db.list_collection_names()` yields, and the two environment variables. -/
structure TestEnv where
  dbSet : Bool
  hasName : Bool
  nameAttr : PyResult String
  listCollectionNames : PyResult (List String)
  databaseUrl : Option String
  databaseName : Option String

/-- The response dict of `test_database`; `database_url` and
`database_name` start as Python `None` (`Option.none`) and are overwritten
with status strings before returning. -/
structure TestResponse where
  backend : String
  database : String
  database_url : Option String
  database_name : Option String
  connection_status : String
  collections : List String
deriving DecidableEq

/-- `str(e)[:50]` applied to an exception message. -/
def truncate50 (s : String) : String := s.take 50

/-- The initial `response` dict of `test_database` (src/main.py lines
152-159). -/
def testInit : TestResponse :=
  { backend := "✅ Running"
  , database := "❌ Not Available"
  , database_url := none
  , database_name := none
  , connection_status := "Not Connected"
  , collections := [] }

/-- The outer `try` block of `test_database` (src/main.py lines 161-174),
mutating `response` step by step; an escaping exception carries the message
and the response as mutated so far.  The only raise point not covered by
the inner `try` is the `db.name` attribute read. -/
def testBody (env : TestEnv) (r0 : TestResponse) :
    Except (String × TestResponse) TestResponse :=
  if env.dbSet then
    let rA := { r0 with database := "✅ Available"
                      , database_url := some "✅ Configured" }
    match (if env.hasName then env.nameAttr else PyResult.ok "✅ Connected") with
    | PyResult.exc e => Except.error (e, rA)
    | PyResult.ok nm =>
      let rB := { rA with database_name := some nm
                        , connection_status := "Connected" }
      match env.listCollectionNames with
      | PyResult.ok cols =>
        Except.ok { rB with collections := cols.take 10
                          , database := "✅ Connected & Working" }
      | PyResult.exc e =>
        Except.ok { rB with database := "⚠️  Connected but Error: " ++ truncate50 e }
  else
    Except.ok { r0 with database := "⚠️  Available but not initialized" }

/-- `test_database` (src/main.py lines 150-182): run the body under
`except Exception`, then unconditionally overwrite `database_url` and
`database_name` from the environment variables.  A raise escaping the
handler would be `PyResult.exc`; the handler always returns `PyResult.ok`. -/
def test_database (env : TestEnv) : PyResult TestResponse :=
  let r1 : TestResponse :=
    match testBody env testInit with
    | Except.ok r => r
    | Except.error er => { er.2 with database := "❌ Error: " ++ truncate50 er.1 }
  PyResult.ok
    { r1 with
      database_url := some (if env.databaseUrl.isSome then "✅ Set" else "❌ Not Set")
    , database_name := some (if env.databaseName.isSome then "✅ Set" else "❌ Not Set") }

/-- An environment in which every store call raises (store forced
unavailable); the handle is unset as well. -/
def excEnv : Env :=
  { dbSet := false
  , countR := fun _ => PyResult.exc "store down"
  , insertR := fun _ _ => PyResult.exc "store down"
  , queryR := fun _ _ _ => PyResult.exc "store down" }

/-- A reachable store: counting reports the collection size, inserting
appends, querying returns the whole collection. -/
def goodEnv : Env :=
  { dbSet := true
  , countR := fun s => PyResult.ok s.products.length
  , insertR := fun d s => PyResult.ok { products := s.products ++ [d] }
  , queryR := fun _ _ s => PyResult.ok s.products }

/-- A reachable store that honors the category filter: querying returns the
documents of the collection whose `category` field matches. -/
def filterEnv : Env :=
  { dbSet := true
  , countR := fun s => PyResult.ok s.products.length
  , insertR := fun d s => PyResult.ok { products := s.products ++ [d] }
  , queryR := fun f _ s =>
      PyResult.ok
        (match f with
         | none => s.products
         | some c => s.products.filter (fun d => decide (d.category = some c))) }

/-- The store collaborator returns at most `limit` documents, as the spec's
contract `get_documents(collection, filter, limit)` states. -/
def honorsLimit (env : Env) : Prop :=
  ∀ f (l : Int) s xs, env.queryR f l s = PyResult.ok xs → xs.length ≤ l.toNat

/-- The store collaborator honors a category filter: every document it
returns under `{"category": c}` has that category. -/
def respectsFilter (env : Env) : Prop :=
  ∀ c (l : Int) s xs, env.queryR (some c) l s = PyResult.ok xs →
    ∀ d ∈ xs, d.category = some c

lemma buildOut_ok_length {f : RawDoc → Except String ProductOut} :
    ∀ {xs : List RawDoc} {ps : List ProductOut},
      buildOut f xs = Except.ok ps → ps.length = xs.length := by
  intro xs
  induction xs with
  | nil =>
    intro ps h
    simp only [buildOut] at h
    cases h
    rfl
  | cons d ds ih =>
    intro ps h
    simp only [buildOut] at h
    cases hf : f d with
    | error e => rw [hf] at h; cases h
    | ok p =>
      rw [hf] at h
      cases hb : buildOut f ds with
      | error e => rw [hb] at h; cases h
      | ok qs =>
        rw [hb] at h
        cases h
        simp [ih hb]

lemma buildOut_ok_mem {f : RawDoc → Except String ProductOut} :
    ∀ {xs : List RawDoc} {ps : List ProductOut},
      buildOut f xs = Except.ok ps →
      ∀ p ∈ ps, ∃ d ∈ xs, f d = Except.ok p := by
  intro xs
  induction xs with
  | nil =>
    intro ps h p hp
    simp only [buildOut] at h
    cases h
    cases hp
  | cons d ds ih =>
    intro ps h p hp
    simp only [buildOut] at h
    cases hf : f d with
    | error e => rw [hf] at h; cases h
    | ok q =>
      rw [hf] at h
      cases hb : buildOut f ds with
      | error e => rw [hb] at h; cases h
      | ok qs =>
        rw [hb] at h
        cases h
        rcases List.mem_cons.mp hp with hpq | hpqs
        · exact ⟨d, List.mem_cons_self d ds, by rw [hf, hpq]⟩
        · rcases ih hb p hpqs with ⟨x, hx, hfx⟩
          exact ⟨x, List.mem_cons_of_mem d hx, hfx⟩

lemma mkProductOut_ok_price {o : Obj} {p : ProductOut}
    (h : mkProductOut o = Except.ok p) : 0 ≤ p.price := by
  unfold mkProductOut at h
  split at h
  · cases h
  · split at h
    · cases h
    · cases h
      exact le_of_not_lt (by assumption)

lemma mkProductOut_ok_category {o : Obj} {p : ProductOut}
    (h : mkProductOut o = Except.ok p) : p.category = o.category := by
  unfold mkProductOut at h
  split at h
  · cases h
  · split at h
    · cases h
    · cases h
      rfl

lemma runQuery_ok {env : Env} {f : Option String} {l : Int} {s : StoreState}
    {xs : List RawDoc} (h : env.queryR f l s = PyResult.ok xs) :
    runQuery env f l s = xs := by
  unfold runQuery
  rw [h]

lemma runQuery_exc {env : Env} {f : Option String} {l : Int} {s : StoreState}
    (h : (env.queryR f l s).isExc = true) :
    runQuery env f l s = pySliceTo SAMPLE_PRODUCTS l := by
  unfold runQuery
  cases hq : env.queryR f l s with
  | ok xs =>
    rw [hq] at h
    simp [PyResult.isExc] at h
  | exc e => rfl

lemma list_products_fallback (env : Env) (s : StoreState) (l : Int)
    (c : Option String)
    (hq : (env.queryR (mkFilter c) l (ensure_seed env s).state).isExc = true) :
    (list_products env s l c).result
      = buildOut itemList (pySliceTo SAMPLE_PRODUCTS l) := by
  unfold list_products
  dsimp only
  rw [runQuery_exc hq]

/-- A document carrying a store identity, used to exercise the id branch of
the normalization. -/
def docWithId : RawDoc :=
  { oid := some "65f0c0ffee"
  , title := some "Air Nova Runner"
  , description := none
  , price := some 149
  , category := none
  , in_stock := none
  , image := none
  , brand := none
  , colors := none }

/-- C1: for every raw document, the normalization maps the store identity
string to `id` (absent when the identity is missing or its string form is
empty), coerces `price` with default 0.0, coerces `in_stock` with default
`True`, defaults `category` to `"shoes"`, and passes `description`,
`image`, `brand`, `colors` through unchanged; the same normalization is
applied by `featured_products`. -/
theorem c1_normalization (d : RawDoc) :
    ((objList d).id = none ↔ (d.oid = none ∨ d.oid = some "")) ∧
    (∀ s, d.oid = some s → s ≠ "" → (objList d).id = some s) ∧
    (objList d).price = d.price.getD 0 ∧
    (d.price = none → (objList d).price = 0) ∧
    (objList d).in_stock = d.in_stock.getD true ∧
    (d.in_stock = none → (objList d).in_stock = true) ∧
    (objList d).category = d.category.getD "shoes" ∧
    (d.category = none → (objList d).category = "shoes") ∧
    (objList d).description = d.description ∧
    (objList d).image = d.image ∧
    (objList d).brand = d.brand ∧
    (objList d).colors = d.colors ∧
    objFeatured d = objList d := by
  refine ⟨?_, ?_, rfl, ?_, rfl, ?_, rfl, ?_, rfl, rfl, rfl, rfl, rfl⟩
  · cases h : d.oid with
    | none => simp [objList, h]
    | some s =>
      by_cases hs : s = "" <;> simp [objList, h, hs]
  · intro s hs hne
    simp [objList, hs, hne]
  · intro h
    simp [objList, h]
  · intro h
    simp [objList, h]
  · intro h
    simp [objList, h]

/-- Witness for C1 at a concrete document with a non-empty identity. -/
theorem c1_normalization_witness :
    (objList docWithId).id = some "65f0c0ffee" :=
  (c1_normalization docWithId).2.1 "65f0c0ffee" rfl (by decide)

/-- C9: the duplicated per-document normalization blocks of `list_products`
and `featured_products` are extensionally equal functions, both as the dict
they build and as the validated product they produce. -/
theorem c9_same_normalization (d : RawDoc) :
    itemList d = itemFeatured d ∧ objList d = objFeatured d :=
  ⟨rfl, rfl⟩

/-- C3: the seed guard never raises — for every store behavior the
exception flag of `ensure_seed` is `false` — and with the handle unset it
performs no store operation and leaves the store untouched. -/
theorem c3_seed_never_raises (env : Env) (s : StoreState) :
    (ensure_seed env s).raised = false ∧
    (env.dbSet = false →
      ensure_seed env s = { raised := false, state := s, ops := [] }) := by
  constructor
  · unfold ensure_seed
    split
    · rfl
    · dsimp only
      split
      · rfl
      · rename_i hb
        simp at hb
        exact hb
  · intro h
    unfold ensure_seed
    rw [if_pos h]

/-- Witness for C3 with the handle unset and every store call raising. -/
theorem c3_seed_never_raises_witness :
    ensure_seed excEnv { products := [] }
      = { raised := false, state := { products := [] }, ops := [] } :=
  (c3_seed_never_raises excEnv { products := [] }).2 rfl

/-- C4: starting from an empty collection on a reachable store, seeding
twice leaves exactly the four sample titles as the distinct titles present;
the second invocation observes a non-zero count, performs only the count,
inserts nothing and leaves the store unchanged. -/
theorem c4_seed_idempotent :
    (((ensure_seed goodEnv
        (ensure_seed goodEnv { products := [] }).state).state.products.filterMap
          RawDoc.title).dedup
      = ["Air Nova Runner", "Atlas Court Pro", "Storm Glide TR", "Pulse React 2"]) ∧
    (ensure_seed goodEnv
        (ensure_seed goodEnv { products := [] }).state).ops = [StoreOp.count] ∧
    (ensure_seed goodEnv
        (ensure_seed goodEnv { products := [] }).state).state
      = (ensure_seed goodEnv { products := [] }).state := by
  refine ⟨by decide, by decide, by decide⟩

/-- C2: when the store query raises, `list_products` returns the
normalization of `SAMPLE_PRODUCTS[:limit]` for every limit and category,
the result does not depend on the category argument, and in particular
`limit = 2` yields the first two sample entries. -/
theorem c2_fallback_unfiltered (env : Env) (s : StoreState) (limit : Int)
    (category : Option String)
    (hq : ∀ f (l : Int) s1, (env.queryR f l s1).isExc = true) :
    (list_products env s limit category).result
      = buildOut itemList (pySliceTo SAMPLE_PRODUCTS limit) ∧
    (∀ c1 c2, (list_products env s limit c1).result
      = (list_products env s limit c2).result) ∧
    (list_products env s 2 category).result
      = buildOut itemList (SAMPLE_PRODUCTS.take 2) := by
  have k : ∀ (l : Int) c, (list_products env s l c).result
      = buildOut itemList (pySliceTo SAMPLE_PRODUCTS l) := by
    intro l c
    exact list_products_fallback env s l c (hq _ _ _)
  exact ⟨k limit category,
         fun c1 c2 => (k limit c1).trans (k limit c2).symm,
         (k 2 category).trans rfl⟩

/-- Witness for C2: with every store call raising, `list(limit=2)` with a
category argument still returns the first two sample entries. -/
theorem c2_fallback_unfiltered_witness :
    (excEnv.queryR (some "running") 2 { products := [] }).isExc = true ∧
    (list_products excEnv { products := [] } 2 (some "running")).result
      = buildOut itemList (SAMPLE_PRODUCTS.take 2) :=
  ⟨rfl, (c2_fallback_unfiltered excEnv { products := [] } 2 (some "running")
          (fun _ _ _ => rfl)).2.2⟩

/-- C10: in fallback mode the slice semantics are Python's — limit 0 yields
the empty sequence, a negative limit yields all sample entries except the
last `|limit|` of them, and `limit = -1` yields the first three of the four
sample products. -/
theorem c10_negative_limit (env : Env) (s : StoreState)
    (category : Option String)
    (hq : ∀ f (l : Int) s1, (env.queryR f l s1).isExc = true) :
    (list_products env s 0 category).result = Except.ok [] ∧
    (∀ l : Int, l < 0 →
      (list_products env s l category).result
        = buildOut itemList
            (SAMPLE_PRODUCTS.take (SAMPLE_PRODUCTS.length - (-l).toNat))) ∧
    (list_products env s (-1) category).result
      = buildOut itemList (SAMPLE_PRODUCTS.take 3) := by
  refine ⟨?_, ?_, ?_⟩
  · exact (list_products_fallback env s 0 category (hq _ _ _)).trans rfl
  · intro l hl
    rw [list_products_fallback env s l category (hq _ _ _)]
    unfold pySliceTo
    rw [if_neg (not_le.mpr hl)]
  · exact (list_products_fallback env s (-1) category (hq _ _ _)).trans rfl

/-- Witness for C10: with every store call raising, `limit = -1` returns
the first three sample products. -/
theorem c10_negative_limit_witness :
    (excEnv.queryR none (-1) { products := [] }).isExc = true ∧
    (list_products excEnv { products := [] } (-1) none).result
      = buildOut itemList (SAMPLE_PRODUCTS.take 3) :=
  ⟨rfl, (c10_negative_limit excEnv { products := [] } none
          (fun _ _ _ => rfl)).2.2⟩

/-- C5: `featured_products` issues exactly one query, with no filter and
limit 4; on success it returns the normalization of every document the
store yields (so a successful response has one product per document), and
on a raising query it returns the normalization of the first four sample
entries, a response of exactly four products. -/
theorem c5_featured (env : Env) (s : StoreState) :
    (featured_products env s).ops
      = (ensure_seed env s).ops ++ [StoreOp.query none 4] ∧
    (∀ xs, env.queryR none 4 (ensure_seed env s).state = PyResult.ok xs →
      (featured_products env s).result = buildOut itemFeatured xs ∧
      ∀ ps, buildOut itemFeatured xs = Except.ok ps → ps.length = xs.length) ∧
    ((env.queryR none 4 (ensure_seed env s).state).isExc = true →
      (featured_products env s).result
        = buildOut itemFeatured (pySliceTo SAMPLE_PRODUCTS 4) ∧
      ∃ ps, (featured_products env s).result = Except.ok ps ∧ ps.length = 4) := by
  refine ⟨rfl, ?_, ?_⟩
  · intro xs h
    constructor
    · unfold featured_products
      dsimp only
      rw [runQuery_ok h]
    · intro ps hp
      exact buildOut_ok_length hp
  · intro h
    have e1 : (featured_products env s).result
        = buildOut itemFeatured (pySliceTo SAMPLE_PRODUCTS 4) := by
      unfold featured_products
      dsimp only
      rw [runQuery_exc h]
    refine ⟨e1, ?_⟩
    rw [e1]
    exact ⟨_, rfl, rfl⟩

/-- Witness for C5: on a reachable seeded store whose query returns the
whole collection, `featured_products` returns the normalization of exactly
those documents. -/
theorem c5_featured_witness :
    goodEnv.queryR none 4 (ensure_seed goodEnv { products := [] }).state
      = PyResult.ok SAMPLE_PRODUCTS ∧
    (featured_products goodEnv { products := [] }).result
      = buildOut itemFeatured SAMPLE_PRODUCTS :=
  ⟨rfl, ((c5_featured goodEnv { products := [] }).2.1 SAMPLE_PRODUCTS rfl).1⟩

/-- The fallback response of `list_products` at its default arguments when
every store call raises. -/
def fallbackProducts : List ProductOut :=
  match (list_products_default excEnv { products := [] }).result with
  | Except.ok ps => ps
  | Except.error _ => []

/-- C6: provided the store honors the requested limit, `list_products` at
its defaults returns (when it returns at all) at most 20 products, each
with nonnegative price; a document whose normalized price would be negative
fails validation and aborts the request, so it never appears in a returned
sequence. -/
theorem c6_default_bounds (env : Env) (s : StoreState)
    (h : honorsLimit env) :
    ∀ ps, (list_products_default env s).result = Except.ok ps →
      ps.length ≤ 20 ∧ ∀ p ∈ ps, 0 ≤ p.price := by
  intro ps hp
  unfold list_products_default list_products at hp
  dsimp only at hp
  constructor
  · cases hq : env.queryR (mkFilter none) 20 (ensure_seed env s).state with
    | ok xs =>
      rw [runQuery_ok hq] at hp
      rw [buildOut_ok_length hp]
      exact h _ _ _ _ hq
    | exc e =>
      rw [runQuery_exc (by rw [hq]; rfl)] at hp
      rw [buildOut_ok_length hp]
      decide
  · intro p hpm
    rcases buildOut_ok_mem hp p hpm with ⟨d, _, hdp⟩
    have hdp' : mkProductOut (objList d) = Except.ok p := hdp
    exact mkProductOut_ok_price hdp'

/-- Witness for C6: the always-raising store trivially honors the limit,
and the fallback response has at most 20 products. -/
theorem c6_default_bounds_witness :
    (list_products_default excEnv { products := [] }).result
      = Except.ok fallbackProducts ∧
    fallbackProducts.length ≤ 20 :=
  ⟨rfl, (c6_default_bounds excEnv { products := [] }
          (fun _ _ _ _ hx => nomatch hx) fallbackProducts rfl).1⟩

lemma filterEnv_respects : respectsFilter filterEnv := by
  intro c l s xs h d hd
  simp only [filterEnv] at h
  cases h
  exact of_decide_eq_true (List.mem_filter.mp hd).2

/-- C7: the filter sent to the store carries the category key exactly when
the argument is provided and non-empty, and — for a store honoring the
filter — every product of a successful `list(category="running")` response
has category `"running"`. -/
theorem c7_category_filter (env : Env) (s : StoreState) (limit : Int)
    (hfil : respectsFilter env) :
    (∀ category, (list_products env s limit category).ops
        = (ensure_seed env s).ops ++ [StoreOp.query (mkFilter category) limit]) ∧
    mkFilter none = none ∧
    mkFilter (some "") = none ∧
    (∀ c, c ≠ "" → mkFilter (some c) = some c) ∧
    (∀ xs, env.queryR (some "running") limit (ensure_seed env s).state
        = PyResult.ok xs →
      ∀ ps, (list_products env s limit (some "running")).result = Except.ok ps →
        ∀ p ∈ ps, p.category = "running") := by
  refine ⟨fun c => rfl, rfl, rfl, fun c hc => by simp [mkFilter, hc], ?_⟩
  intro xs hxs ps hps p hpm
  unfold list_products at hps
  dsimp only at hps
  have hmk : mkFilter (some "running") = some "running" := rfl
  rw [hmk, runQuery_ok hxs] at hps
  rcases buildOut_ok_mem hps p hpm with ⟨d, hd, hdp⟩
  have hdp' : mkProductOut (objList d) = Except.ok p := hdp
  have hcat := mkProductOut_ok_category hdp'
  have hdc : d.category = some "running" := hfil _ _ _ _ hxs d hd
  rw [hcat]
  simp [objList, hdc]

/-- Witness for C7 on a store honoring the filter: the recorded query op
carries the normalized filter. -/
theorem c7_category_filter_witness :
    respectsFilter filterEnv ∧
    (list_products filterEnv { products := [] } 20 (some "running")).ops
      = (ensure_seed filterEnv { products := [] }).ops
          ++ [StoreOp.query (mkFilter (some "running")) 20] :=
  ⟨filterEnv_respects,
   (c7_category_filter filterEnv { products := [] } 20 filterEnv_respects).1
     (some "running")⟩

lemma testBody_cases (env : TestEnv) :
    (∃ r, testBody env testInit = Except.ok r ∧
      r.collections.length ≤ 10 ∧ r.backend = "✅ Running" ∧
      (r.connection_status = "Not Connected" ∨
        r.connection_status = "Connected")) ∨
    (∃ er, testBody env testInit = Except.error er ∧
      er.2.collections.length ≤ 10 ∧ er.2.backend = "✅ Running" ∧
      (er.2.connection_status = "Not Connected" ∨
        er.2.connection_status = "Connected")) := by
  unfold testBody
  by_cases hdb : env.dbSet
  · rw [if_pos hdb]
    dsimp only
    cases hv : (if env.hasName then env.nameAttr else PyResult.ok "✅ Connected") with
    | exc e =>
      right
      exact ⟨_, rfl, by simp [testInit], by simp [testInit],
             Or.inl (by simp [testInit])⟩
    | ok nm =>
      cases hc : env.listCollectionNames with
      | ok cols =>
        left
        refine ⟨_, rfl, ?_, by simp [testInit], Or.inr (by simp [testInit])⟩
        simp only [List.length_take, testInit]
        exact min_le_left _ _
      | exc e =>
        left
        exact ⟨_, rfl, by simp [testInit], by simp [testInit],
               Or.inr (by simp [testInit])⟩
  · rw [if_neg hdb]
    left
    exact ⟨_, rfl, by simp [testInit], by simp [testInit],
           Or.inl (by simp [testInit])⟩

/-- C8: the diagnostic handler returns normally for every store state, with
at most 10 collection names and only status strings for the backend,
connection and environment-variable fields. -/
theorem c8_test_never_fails (env : TestEnv) :
    ∃ r, test_database env = PyResult.ok r ∧
      r.collections.length ≤ 10 ∧
      r.backend = "✅ Running" ∧
      (r.connection_status = "Not Connected" ∨
        r.connection_status = "Connected") ∧
      (r.database_url = some "✅ Set" ∨ r.database_url = some "❌ Not Set") ∧
      (r.database_name = some "✅ Set" ∨ r.database_name = some "❌ Not Set") := by
  unfold test_database
  rcases testBody_cases env with ⟨r, hr, h10, hb, hcs⟩ | ⟨er, hr, h10, hb, hcs⟩ <;>
    rw [hr] <;>
    dsimp only <;>
    refine ⟨_, rfl, h10, hb, hcs, ?_, ?_⟩ <;>
    split <;> simp <;> tauto

end ShoeStore
